import Mathlib

/-!
Shallow embedding of the BOM ingestion and upload orchestration core of
`sbomreport-to-dependencytrack`.

The embedded code consists of:
- the `dependencytrack` package (`UploadBOM`, `IsLatest`, `AddTagsToProject`),
- the `uploader` package (`Run`).

External collaborators (the Dependency-Track REST client `dt.Client.*`, the
report normalizer `sbomreport`, and the template engine `tmpl`) are modelled
as oracles: records of functions supplying the responses the code would
receive from them.  Time in the poll loop is modelled as discrete
natural-number instants; the processing check itself is treated as
instantaneous, so the loop advances from select point to select point at the
ready-time of whichever channel fires first.
-/

/-- Error values observed by the embedded code.  `notSBOMReport` models the
error class recognized by `sbomreport.IsErrNotSBOMReport`; `unsupported`
models `errors.New("only support verb is update")`; `timeout` models
`fmt.Errorf("timeout exceeded")`; `canceled` models `ctx.Err()`; `service`
models any transport or service error returned by the Dependency-Track
client. -/
inductive Err where
  | notSBOMReport (msg : String)
  | unsupported (msg : String)
  | timeout
  | canceled (msg : String)
  | service (msg : String)
  deriving DecidableEq, Repr

/-- `sbomreport.IsErrNotSBOMReport`: recognizes the "not an SBOM report"
error class. -/
def IsErrNotSBOMReport : Err → Bool
  | .notSBOMReport _ => true
  | _ => false

/-- `dtrack.Tag`: a project tag, holding a name. -/
structure Tag where
  name : String
  deriving DecidableEq, Repr

/-- `dtrack.Project`: the fields of the client's project record that the
embedded code reads or writes.  `lastBOMImport` is the epoch-milliseconds
value `int64(project.LastBOMImport)`. -/
structure Project where
  name : String
  version : String
  active : Bool
  uuid : String
  lastBOMImport : Int
  tags : List Tag
  deriving DecidableEq, Repr

/-- The zero value of `dtrack.Project`, which is what the Go client returns
alongside a lookup error. -/
def Project.zero : Project :=
  { name := "", version := "", active := false, uuid := "", lastBOMImport := 0, tags := [] }

/-- `DependencyTrack.IsLatest` (dependencytrack package): the project-version
lookup result is supplied by the client oracle; on lookup error return
`true`, otherwise compare the record's `LastBOMImport` strictly against the
incoming update timestamp. -/
def IsLatest (lookupResult : Except Err Project) (updateTimestamp : Int) : Bool :=
  match lookupResult with
  | .error _ => true
  | .ok project => decide (project.lastBOMImport < updateTimestamp)

/-- C1: when the project-version lookup succeeds, `IsLatest` returns `true`
iff the record's `lastBOMImport` timestamp is strictly less than the incoming
update timestamp; in particular equal timestamps yield `false`. -/
theorem isLatest_ok_strict (p : Project) (ts : Int) :
    (IsLatest (Except.ok p) ts = true ↔ p.lastBOMImport < ts) ∧
    (p.lastBOMImport = ts → IsLatest (Except.ok p) ts = false) := by
  refine ⟨by simp [IsLatest], fun h => ?_⟩
  simp [IsLatest, h]

/-- Witness for C1 at a concrete tied input: a record whose timestamp equals
the incoming timestamp is not latest. -/
theorem isLatest_ok_strict_witness :
    IsLatest (Except.ok { Project.zero with lastBOMImport := 5 }) 5 = false :=
  (isLatest_ok_strict { Project.zero with lastBOMImport := 5 } 5).2 rfl

/-- C5: when the project-version lookup fails, `IsLatest` returns `true`
regardless of the incoming timestamp. -/
theorem isLatest_lookup_error (e : Err) (ts : Int) :
    IsLatest (Except.error e) ts = true := rfl

/-- Terminal outcome of the poll loop in `UploadBOM`, together with the
discrete instant at which the loop returned. -/
inductive PollOutcome where
  | success (t : Nat)
  | failure (e : Err) (t : Nat)
  deriving DecidableEq, Repr

/-- Inputs of the poll phase of `UploadBOM`: the ticker interval
`SBOMUploadCheckInterval`, the duration passed to `time.After`
(`SBOMUploadTimeout`), the oracle answering the k-th
`Event.IsBeingProcessed` call, and the instant at which the caller's
context is done together with the error `ctx.Err()` reports (or `none`
when the context is never canceled). -/
structure PollCfg where
  checkInterval : Nat
  uploadTimeout : Nat
  isProcessing : Nat → Except Err Bool
  cancel : Option (Nat × Err)

/-- One iteration of the `for`/`select` loop inside `UploadBOM`.  The state
is `(now, k)`: the current instant and the number of ticks consumed so far.
Channel ready-times at this select point:
- the ticker (started at instant 0) has tick `k+1` ready at
  `(k+1) * checkInterval`, or immediately if that instant has passed;
- `time.After(uploadTimeout)` is re-evaluated on every iteration of the
  loop, so its timer is created afresh at this select point and is ready at
  `now + uploadTimeout`;
- the context's done channel is ready from its close instant onward.
The earliest ready channel fires.  Go resolves ties between simultaneously
ready channels at random; this model resolves them deterministically
(cancellation, then tick, then timer), and theorems whose conclusion depends
on the winner assume strict inequalities so that they hold under any
tie-break. -/
def pollStep (cfg : PollCfg) (now k : Nat) : (Nat × Nat) ⊕ PollOutcome :=
  let rT := max now ((k + 1) * cfg.checkInterval)
  let rA := now + cfg.uploadTimeout
  let tickFires : (Nat × Nat) ⊕ PollOutcome :=
    match cfg.isProcessing k with
    | .error e => .inr (.failure e rT)
    | .ok true => .inl (rT, k + 1)
    | .ok false => .inr (.success rT)
  match cfg.cancel with
  | some ce =>
    let rC := max now ce.1
    if rC ≤ rT ∧ rC ≤ rA then .inr (.failure ce.2 rC)
    else if rT ≤ rA then tickFires
    else .inr (.failure Err.timeout rA)
  | none =>
    if rT ≤ rA then tickFires
    else .inr (.failure Err.timeout rA)

/-- The poll loop of `UploadBOM`, run for `fuel` select iterations from
state `s`; `none` means the loop is still running after `fuel` iterations. -/
def pollRun (cfg : PollCfg) : Nat → Nat × Nat → Option PollOutcome
  | 0, _ => none
  | fuel + 1, s =>
    match pollStep cfg s.1 s.2 with
    | .inl s2 => pollRun cfg fuel s2
    | .inr r => some r

/-- When every processing check reports `true`, every iteration of the loop
consumes the next tick: from state `(k * d, k)` the loop is still running
after any number of iterations, because the re-armed `time.After` timer
(ready `uploadTimeout` after each select entry) always loses to the next
tick (ready `checkInterval` after the previous one). -/
lemma pollRun_always_ticks (d T : Nat) (proc : Nat → Except Err Bool)
    (hdT : d < T) (hproc : ∀ k, proc k = Except.ok true) :
    ∀ n k, pollRun ⟨d, T, proc, none⟩ n (k * d, k) = none := by
  intro n
  induction n with
  | zero => intro k; rfl
  | succ m ih =>
    intro k
    have hle : max (k * d) ((k + 1) * d) ≤ k * d + T := by
      have h1 : (k + 1) * d ≤ k * d + T := by
        have : (k + 1) * d = k * d + d := by ring
        omega
      omega
    have hmax : max (k * d) ((k + 1) * d) = (k + 1) * d := by
      have : k * d ≤ (k + 1) * d := Nat.mul_le_mul_right d (Nat.le_succ k)
      omega
    simp only [pollRun, pollStep, hproc k]
    rw [if_pos hle, hmax]
    exact ih (k + 1)

/-- C2: code_bug evidence.  In the poll loop of `UploadBOM`, the
`time.After(uploadTimeout)` timer is re-created on every iteration of the
`for`/`select` loop instead of being a single deadline measured from
poll-loop start: whenever the check interval is shorter than the upload
timeout and the is-processing check keeps reporting `true` (and the context
is never canceled), the loop never returns at all — in particular it never
returns the timeout error the claim requires. -/
theorem uploadBOM_poll_never_times_out (d T : Nat) (proc : Nat → Except Err Bool)
    (hdT : d < T) (hproc : ∀ k, proc k = Except.ok true) (n : Nat) :
    pollRun ⟨d, T, proc, none⟩ n (0, 0) = none := by
  have h := pollRun_always_ticks d T proc hdT hproc n 0
  simpa using h

/-- Witness for C2 at the concrete failing input: check interval 1, upload
timeout 2, processing always `true` — after 5 select iterations (instant 5,
well past the 2-unit timeout) the loop is still running. -/
theorem uploadBOM_poll_never_times_out_witness :
    pollRun ⟨1, 2, fun _ => Except.ok true, none⟩ 5 (0, 0) = none :=
  uploadBOM_poll_never_times_out 1 2 (fun _ => Except.ok true) (by decide)
    (fun _ => rfl) 5

/-- C6: if the caller's context is done strictly before both the next tick
and the re-armed timer, the poll loop terminates with the context's error at
its next select point; in particular, a context canceled at instant `c`
before the first tick (`c < checkInterval`, `c < uploadTimeout`) makes the
loop return the cancellation error at instant `c`, without waiting for
`checkInterval` to elapse. -/
theorem uploadBOM_poll_cancel_immediate (d T c : Nat) (e : Err)
    (proc : Nat → Except Err Bool) (hcd : c < d) (hcT : c < T) :
    (∀ now k, max now c < max now ((k + 1) * d) → max now c < now + T →
      pollStep ⟨d, T, proc, some (c, e)⟩ now k
        = Sum.inr (PollOutcome.failure e (max now c))) ∧
    pollRun ⟨d, T, proc, some (c, e)⟩ 1 (0, 0)
      = some (PollOutcome.failure e c) := by
  constructor
  · intro now k h1 h2
    simp only [pollStep]
    rw [if_pos ⟨Nat.le_of_lt h1, Nat.le_of_lt h2⟩]
  · simp only [pollRun, pollStep]
    have h1 : max 0 c ≤ max 0 ((0 + 1) * d) := by simpa using Nat.le_of_lt hcd
    have h2 : max 0 c ≤ 0 + T := by simpa using Nat.le_of_lt hcT
    rw [if_pos ⟨h1, h2⟩]
    simp

/-- Witness for C6 at a concrete input: interval 10, timeout 100, context
canceled at instant 3 — the loop returns the cancellation error at instant
3, before the first tick at instant 10. -/
theorem uploadBOM_poll_cancel_immediate_witness :
    pollRun ⟨10, 100, fun _ => Except.ok true, some (3, Err.canceled "context canceled")⟩ 1 (0, 0)
      = some (PollOutcome.failure (Err.canceled "context canceled") 3) :=
  (uploadBOM_poll_cancel_immediate 10 100 3 (Err.canceled "context canceled")
    (fun _ => Except.ok true) (by decide) (by decide)).2

/-- The standard base64 alphabet used by `encoding/base64.StdEncoding`. -/
def base64Alphabet : List Char :=
  "ABCDEFGHIJKLMNOPQRSTUVWXYZabcdefghijklmnopqrstuvwxyz0123456789+/".data

/-- The base64 character for a 6-bit value. -/
def base64Char (n : Nat) : Char := base64Alphabet.getD n '='

/-- Characters of the standard base64 encoding of a byte sequence, with
`'='` padding. -/
def base64Chars : List Nat → List Char
  | [] => []
  | [a] => [base64Char (a / 4), base64Char (a % 4 * 16), '=', '=']
  | [a, b] => [base64Char (a / 4), base64Char (a % 4 * 16 + b / 16),
      base64Char (b % 16 * 4), '=']
  | a :: b :: c :: rest =>
      base64Char (a / 4) :: base64Char (a % 4 * 16 + b / 16) ::
      base64Char (b % 16 * 4 + c / 64) :: base64Char (c % 64) :: base64Chars rest

/-- `base64.StdEncoding.EncodeToString`. -/
def base64EncodeToString (bs : List Nat) : String := String.mk (base64Chars bs)

/-- `dtrack.BOMUploadRequest` as populated by `UploadBOM`. -/
structure BOMUploadRequest where
  projectUUID : String
  projectVersion : String
  parentName : String
  parentVersion : String
  autoCreate : Bool
  bom : String
  isLatest : Bool
  deriving DecidableEq, Repr

/-- Calls `UploadBOM` makes on the Dependency-Track client, in order. -/
inductive DTEvent where
  | lookupProject (name version : String)
  | createProject (p : Project)
  | submitBOM (req : BOMUploadRequest)
  deriving DecidableEq, Repr

/-- Client oracle for one `UploadBOM` call: the result of the first
`Project.Lookup`, of `Project.Create`, of the re-`Lookup` after a create,
of `BOM.Upload` (an upload token on success), and the poll-phase inputs. -/
structure UploadEnv where
  lookup1 : Except Err Project
  create : Project → Except Err Project
  lookup2 : Except Err Project
  submit : BOMUploadRequest → Except Err String
  poll : PollCfg

/-- The fresh project record `UploadBOM` builds before calling
`Project.Create`: name, version and `Active: true` only. -/
def newProjectRecord (projectName projectVersion : String) : Project :=
  { name := projectName, version := projectVersion, active := true,
    uuid := "", lastBOMImport := 0, tags := [] }

/-- The project-existence phase of `UploadBOM` (its first half): look up
`(name, version)`; on lookup error, build a fresh active project record,
create it (returning the create error on failure), then re-look it up
(returning the lookup error on failure).  In the Go source the `if` block
re-declares (shadows) the variable `project`, so the re-looked-up record is
dropped at the end of the block and the code continues with the outer
variable, which still holds the zero `Project` value returned beside the
first lookup's error. -/
def ensureProject (env : UploadEnv) (projectName projectVersion : String) :
    Except Err Project × List DTEvent :=
  match env.lookup1 with
  | .ok p => (.ok p, [.lookupProject projectName projectVersion])
  | .error _ =>
    let newP : Project := newProjectRecord projectName projectVersion
    match env.create newP with
    | .error e => (.error e,
        [.lookupProject projectName projectVersion, .createProject newP])
    | .ok _ =>
      match env.lookup2 with
      | .error e => (.error e,
          [.lookupProject projectName projectVersion, .createProject newP,
           .lookupProject projectName projectVersion])
      | .ok _ => (.ok Project.zero,
          [.lookupProject projectName projectVersion, .createProject newP,
           .lookupProject projectName projectVersion])

/-- The `dtrack.BOMUploadRequest` literal built by `UploadBOM`: the ensured
project's UUID, the version, parent linkage, `AutoCreate: true`, and the
base64-encoded BOM with the `isLatest` flag. -/
def mkUploadRequest (uuid projectVersion parentName parentVersion : String)
    (bom : List Nat) (isLatest : Bool) : BOMUploadRequest :=
  { projectUUID := uuid, projectVersion := projectVersion,
    parentName := parentName, parentVersion := parentVersion,
    autoCreate := true, bom := base64EncodeToString bom, isLatest := isLatest }

/-- `DependencyTrack.UploadBOM`: ensure the project exists, submit the
base64-encoded BOM with the `isLatest` flag, parent linkage and
`AutoCreate: true`, then run the poll loop for `fuel` select iterations.
The first component is `none` while the poll loop is still running,
otherwise the call's result; the second component is the trace of client
calls made. -/
def UploadBOMImpl (env : UploadEnv)
    (projectName projectVersion parentName parentVersion : String)
    (bom : List Nat) (isLatest : Bool) (fuel : Nat) :
    Option (Except Err Unit) × List DTEvent :=
  match ensureProject env projectName projectVersion with
  | (.error e, tr) => (some (.error e), tr)
  | (.ok project, tr) =>
    let req : BOMUploadRequest :=
      mkUploadRequest project.uuid projectVersion parentName parentVersion bom isLatest
    match env.submit req with
    | .error e => (some (.error e), tr ++ [.submitBOM req])
    | .ok _token =>
      match pollRun env.poll fuel (0, 0) with
      | none => (none, tr ++ [.submitBOM req])
      | some (.success _) => (some (.ok ()), tr ++ [.submitBOM req])
      | some (.failure e _) => (some (.error e), tr ++ [.submitBOM req])

/-- A client oracle exhibiting a create race: the first lookup misses, the
create fails (the project was created concurrently), and the re-lookup
would succeed. -/
def createRaceEnv : UploadEnv :=
  { lookup1 := Except.error (Err.service "project not found")
  , create := fun _ => Except.error (Err.service "conflict: project exists")
  , lookup2 := Except.ok
      { name := "myproj", version := "v1", active := true, uuid := "u-1",
        lastBOMImport := 0, tags := [] }
  , submit := fun _ => Except.ok "token"
  , poll := ⟨1, 10, fun _ => Except.ok false, none⟩ }

/-- Counterexample to C3 as stated: under `createRaceEnv` (create fails,
re-lookup would succeed) `UploadBOM` returns the create error and never
submits the BOM — the failed create IS treated as fatal. -/
theorem uploadBOM_create_race_fatal_cex :
    UploadBOMImpl createRaceEnv "myproj" "v1" "" "" [] true 1
      = (some (Except.error (Err.service "conflict: project exists")),
         [DTEvent.lookupProject "myproj" "v1",
          DTEvent.createProject (newProjectRecord "myproj" "v1")]) := rfl

/-- C3 (amended): `UploadBOM` first looks up the project by
`(name, version)` and on success proceeds directly to the BOM submission
with that project's identifier; on lookup failure it creates the project
(active, no extra metadata) and, when the create succeeds, re-looks the
project up and proceeds with the upload (the re-looked-up record is
discarded by variable shadowing, so the submission uses the zero-value
identifier); when the create fails, `UploadBOM` returns the create error
without re-looking up and without uploading — a create race is not
tolerated. -/
theorem uploadBOM_ensure_project_steps (env : UploadEnv)
    (pn pv pN pV : String) (bom : List Nat) (lat : Bool) (fuel : Nat) :
    (∀ p, env.lookup1 = Except.ok p →
      (UploadBOMImpl env pn pv pN pV bom lat fuel).2
        = [DTEvent.lookupProject pn pv,
           DTEvent.submitBOM (mkUploadRequest p.uuid pv pN pV bom lat)]) ∧
    (∀ e1 e2, env.lookup1 = Except.error e1 →
      env.create (newProjectRecord pn pv) = Except.error e2 →
      UploadBOMImpl env pn pv pN pV bom lat fuel
        = (some (Except.error e2),
           [DTEvent.lookupProject pn pv,
            DTEvent.createProject (newProjectRecord pn pv)])) ∧
    (∀ e1 p1 p2, env.lookup1 = Except.error e1 →
      env.create (newProjectRecord pn pv) = Except.ok p1 →
      env.lookup2 = Except.ok p2 →
      (UploadBOMImpl env pn pv pN pV bom lat fuel).2
        = [DTEvent.lookupProject pn pv,
           DTEvent.createProject (newProjectRecord pn pv),
           DTEvent.lookupProject pn pv,
           DTEvent.submitBOM
             (mkUploadRequest Project.zero.uuid pv pN pV bom lat)]) := by
  refine ⟨fun p h => ?_, fun e1 e2 h1 h2 => ?_, fun e1 p1 p2 h1 h2 h3 => ?_⟩
  · simp only [UploadBOMImpl, ensureProject, h]
    cases hs : env.submit (mkUploadRequest p.uuid pv pN pV bom lat) with
    | error e => simp
    | ok tok =>
      cases hp : pollRun env.poll fuel (0, 0) with
      | none => simp
      | some r => cases r <;> simp
  · simp only [UploadBOMImpl, ensureProject, h1, h2]
  · simp only [UploadBOMImpl, ensureProject, h1, h2, h3]
    cases hs : env.submit (mkUploadRequest Project.zero.uuid pv pN pV bom lat) with
    | error e => simp
    | ok tok =>
      cases hp : pollRun env.poll fuel (0, 0) with
      | none => simp
      | some r => cases r <;> simp

/-- Witness for the amended C3 on the create-fails path, applying the
theorem at `createRaceEnv`. -/
theorem uploadBOM_ensure_project_steps_witness :
    UploadBOMImpl createRaceEnv "myproj" "v1" "" "" [] true 1
      = (some (Except.error (Err.service "conflict: project exists")),
         [DTEvent.lookupProject "myproj" "v1",
          DTEvent.createProject (newProjectRecord "myproj" "v1")]) :=
  (uploadBOM_ensure_project_steps createRaceEnv "myproj" "v1" "" "" [] true 1).2.1
    (Err.service "project not found") (Err.service "conflict: project exists") rfl rfl

/-- `strconv.ParseInt(s, 10, 64)` for explicit base 10: an optional leading
sign followed by at least one decimal digit, with the value range-checked
against 64-bit bounds; `none` models a non-nil error. -/
def parseInt64 (s : String) : Option Int :=
  let signDigits : Int × List Char :=
    match s.data with
    | '+' :: rest => (1, rest)
    | '-' :: rest => (-1, rest)
    | cs => (1, cs)
  let digits := signDigits.2
  if digits = [] then none
  else if digits.all (fun c => c.isDigit) then
    let n : Nat := digits.foldl (fun acc c => acc * 10 + (c.toNat - 48)) 0
    let v : Int := signDigits.1 * n
    if -(2 ^ 63) ≤ v ∧ v ≤ 2 ^ 63 - 1 then some v else none
  else none

/-- The template expressions of `config.Config` consumed by `Run`. -/
structure Config where
  projectName : String
  projectVersion : String
  projectTags : List String
  parentName : String
  parentVersion : String

/-- The parsed report as `Run` observes it: the result of
`sbom.ISVerbUpdate()`, the raw `sbom.UpdateTimestamp` string, and the
`sbom.BOM()` bytes. -/
structure Report where
  verbIsUpdate : Bool
  updateTimestamp : String
  bom : List Nat
  deriving DecidableEq, Repr

/-- Calls `Run` makes on the `DependencyTrackClient` interface, in order. -/
inductive CallEvent where
  | isLatestCall (name version : String) (ts : Int)
  | uploadCall (name version parentName parentVersion : String)
      (bom : List Nat) (isLatest : Bool)
  | addTagsCall (name version : String) (tags : List String)
  deriving DecidableEq, Repr

/-- True exactly on `IsLatest` client calls. -/
def CallEvent.isArb : CallEvent → Bool
  | .isLatestCall _ _ _ => true
  | _ => false

/-- True exactly on `UploadBOM` client calls. -/
def CallEvent.isUpload : CallEvent → Bool
  | .uploadCall _ _ _ _ _ _ => true
  | _ => false

/-- True exactly on `AddTagsToProject` client calls. -/
def CallEvent.isTagCall : CallEvent → Bool
  | .addTagsCall _ _ _ => true
  | _ => false

/-- Collaborator oracle for one `Run` call: the result of
`sbomreport.New(input)`, of `sbom.ToMap()`, of `tpl.Render` (already closed
over the report's data mapping), and the three `DependencyTrackClient`
methods. -/
structure RunEnv where
  parseResult : Except Err Report
  toMapResult : Except Err Unit
  render : String → Except Err String
  isLatest : String → String → Int → Bool
  uploadBOM : String → String → String → String → List Nat → Bool →
    Except Err Unit
  addTags : String → String → List String → Except Err Unit

/-- The tag-rendering loop of `Run`: render each configured tag template in
order, short-circuiting on the first render error. -/
def renderTags (render : String → Except Err String) :
    List String → Except Err (List String)
  | [] => .ok []
  | t :: rest =>
    match render t with
    | .error e => .error e
    | .ok s =>
      match renderTags render rest with
      | .error e => .error e
      | .ok ss => .ok (s :: ss)

/-- The `isLatest` value `Run` computes (uploader.go lines 88-92): default
`true` when `strconv.ParseInt` fails on the report's update timestamp,
otherwise the client's `IsLatest` answer for the resolved name, version and
parsed timestamp. -/
def runIsLatest (env : RunEnv) (projectName projectVersion : String)
    (r : Report) : Bool :=
  match parseInt64 r.updateTimestamp with
  | none => true
  | some ts => env.isLatest projectName projectVersion ts

/-- The client calls the `isLatest` computation of `Run` performs: none
when the timestamp is unparsable, one `IsLatest` call otherwise. -/
def runArbTrace (projectName projectVersion : String) (r : Report) :
    List CallEvent :=
  match parseInt64 r.updateTimestamp with
  | none => []
  | some ts => [.isLatestCall projectName projectVersion ts]

/-- `Upload.Run` (uploader package): parse the report (skipping, with a nil
result, inputs recognized as not SBOM reports), reject non-update verbs,
render the project identity and tags, compute `isLatest`, upload the BOM,
and, when the resolved tag list is non-empty, add the tags to the project.
The first component is the returned error (`none` for nil), the second the
trace of client calls made. -/
def Run (cfg : Config) (env : RunEnv) : Option Err × List CallEvent :=
  match env.parseResult with
  | .error e => if IsErrNotSBOMReport e then (none, []) else (some e, [])
  | .ok sbom =>
    if sbom.verbIsUpdate = false then
      (some (Err.unsupported "only support verb is update"), [])
    else
      match env.toMapResult with
      | .error e => (some e, [])
      | .ok _ =>
        match env.render cfg.projectName with
        | .error e => (some e, [])
        | .ok projectName =>
          match env.render cfg.projectVersion with
          | .error e => (some e, [])
          | .ok projectVersion =>
            match renderTags env.render cfg.projectTags with
            | .error e => (some e, [])
            | .ok projectTags =>
              match env.render cfg.parentName with
              | .error e => (some e, [])
              | .ok parentName =>
                match env.render cfg.parentVersion with
                | .error e => (some e, [])
                | .ok parentVersion =>
                  let lat := runIsLatest env projectName projectVersion sbom
                  let upTrace := runArbTrace projectName projectVersion sbom ++
                    [.uploadCall projectName projectVersion parentName
                      parentVersion sbom.bom lat]
                  match env.uploadBOM projectName projectVersion parentName
                      parentVersion sbom.bom lat with
                  | .error e => (some e, upTrace)
                  | .ok _ =>
                    if projectTags.length > 0 then
                      match env.addTags projectName projectVersion projectTags with
                      | .error e => (some e, upTrace ++
                          [.addTagsCall projectName projectVersion projectTags])
                      | .ok _ => (none, upTrace ++
                          [.addTagsCall projectName projectVersion projectTags])
                    else (none, upTrace)

/-- Client oracle for one `AddTagsToProject` call: the `Project.Lookup`
result and the `Project.Update` result. -/
structure TagEnv where
  lookup : Except Err Project
  update : Project → Except Err Project

/-- `DependencyTrack.AddTagsToProject`: look up the project, append each tag
in order to its existing tag collection (no deduplication), and persist the
updated record with `Project.Update`.  The second component is the list of
records passed to `Project.Update`. -/
def AddTagsToProjectImpl (env : TagEnv) (tags : List String) :
    Except Err Unit × List Project :=
  match env.lookup with
  | .error e => (.error e, [])
  | .ok project =>
    let updated :=
      { project with tags := project.tags ++ tags.map (fun t => { name := t }) }
    match env.update updated with
    | .error e => (.error e, [updated])
    | .ok _ => (.ok (), [updated])

/-- The arbitration trace contains no `AddTagsToProject` call. -/
lemma runArbTrace_filter_tag (pn pv : String) (r : Report) :
    (runArbTrace pn pv r).filter CallEvent.isTagCall = [] := by
  unfold runArbTrace
  cases parseInt64 r.updateTimestamp <;> simp [CallEvent.isTagCall]

/-- The arbitration trace contains no `UploadBOM` call. -/
lemma runArbTrace_filter_upload (pn pv : String) (r : Report) :
    (runArbTrace pn pv r).filter CallEvent.isUpload = [] := by
  unfold runArbTrace
  cases parseInt64 r.updateTimestamp <;> simp [CallEvent.isUpload]

/-- Every event of the arbitration trace is an `IsLatest` call. -/
lemma runArbTrace_filter_arb (pn pv : String) (r : Report) :
    (runArbTrace pn pv r).filter CallEvent.isArb = runArbTrace pn pv r := by
  unfold runArbTrace
  cases parseInt64 r.updateTimestamp <;> simp [CallEvent.isArb]

/-- Reduction of `Run` once the report parsed with verb update, `ToMap`
succeeded, and all templates rendered: what remains is the upload and the
conditional tag call. -/
lemma run_happy_path (cfg : Config) (env : RunEnv) (r : Report)
    (pn pv ppn ppv : String) (ts : List String)
    (hp : env.parseResult = Except.ok r) (hv : r.verbIsUpdate = true)
    (hm : env.toMapResult = Except.ok ())
    (h1 : env.render cfg.projectName = Except.ok pn)
    (h2 : env.render cfg.projectVersion = Except.ok pv)
    (h3 : renderTags env.render cfg.projectTags = Except.ok ts)
    (h4 : env.render cfg.parentName = Except.ok ppn)
    (h5 : env.render cfg.parentVersion = Except.ok ppv) :
    Run cfg env =
      match env.uploadBOM pn pv ppn ppv r.bom (runIsLatest env pn pv r) with
      | .error e => (some e, runArbTrace pn pv r ++
          [CallEvent.uploadCall pn pv ppn ppv r.bom (runIsLatest env pn pv r)])
      | .ok _ =>
        if ts.length > 0 then
          match env.addTags pn pv ts with
          | .error e => (some e, runArbTrace pn pv r ++
              [CallEvent.uploadCall pn pv ppn ppv r.bom (runIsLatest env pn pv r),
               CallEvent.addTagsCall pn pv ts])
          | .ok _ => (none, runArbTrace pn pv r ++
              [CallEvent.uploadCall pn pv ppn ppv r.bom (runIsLatest env pn pv r),
               CallEvent.addTagsCall pn pv ts])
        else (none, runArbTrace pn pv r ++
            [CallEvent.uploadCall pn pv ppn ppv r.bom (runIsLatest env pn pv r)]) := by
  simp [Run, hp, hv, hm, h1, h2, h3, h4, h5]

/-- C4: when the report's `UpdateTimestamp` does not parse as a base-10
64-bit integer, `Run` makes no `IsLatest` call and uploads with
`isLatest = true`; when it parses to `n`, `Run` makes exactly one `IsLatest`
call for the resolved name, version and `n`, and uploads with exactly the
arbiter's answer. -/
theorem run_timestamp_default (cfg : Config) (env : RunEnv) (r : Report)
    (pn pv ppn ppv : String) (ts : List String)
    (hp : env.parseResult = Except.ok r) (hv : r.verbIsUpdate = true)
    (hm : env.toMapResult = Except.ok ())
    (h1 : env.render cfg.projectName = Except.ok pn)
    (h2 : env.render cfg.projectVersion = Except.ok pv)
    (h3 : renderTags env.render cfg.projectTags = Except.ok ts)
    (h4 : env.render cfg.parentName = Except.ok ppn)
    (h5 : env.render cfg.parentVersion = Except.ok ppv) :
    (parseInt64 r.updateTimestamp = none →
      (Run cfg env).2.filter CallEvent.isArb = [] ∧
      (Run cfg env).2.filter CallEvent.isUpload
        = [CallEvent.uploadCall pn pv ppn ppv r.bom true]) ∧
    (∀ n, parseInt64 r.updateTimestamp = some n →
      (Run cfg env).2.filter CallEvent.isArb = [CallEvent.isLatestCall pn pv n] ∧
      (Run cfg env).2.filter CallEvent.isUpload
        = [CallEvent.uploadCall pn pv ppn ppv r.bom (env.isLatest pn pv n)]) := by
  have hr := run_happy_path cfg env r pn pv ppn ppv ts hp hv hm h1 h2 h3 h4 h5
  constructor
  · intro hts
    rw [hr]
    cases hu : env.uploadBOM pn pv ppn ppv r.bom (runIsLatest env pn pv r) with
    | error e =>
      simp [runArbTrace, runIsLatest, hts, CallEvent.isArb, CallEvent.isUpload]
    | ok u =>
      by_cases hl : ts.length > 0
      · cases ha : env.addTags pn pv ts <;>
          simp [hl, runArbTrace, runIsLatest, hts, CallEvent.isArb,
            CallEvent.isUpload, CallEvent.isTagCall]
      · simp [hl, runArbTrace, runIsLatest, hts, CallEvent.isArb,
          CallEvent.isUpload]
  · intro n hts
    rw [hr]
    cases hu : env.uploadBOM pn pv ppn ppv r.bom (runIsLatest env pn pv r) with
    | error e =>
      simp [runArbTrace, runIsLatest, hts, CallEvent.isArb, CallEvent.isUpload]
    | ok u =>
      by_cases hl : ts.length > 0
      · cases ha : env.addTags pn pv ts <;>
          simp [hl, runArbTrace, runIsLatest, hts, CallEvent.isArb,
            CallEvent.isUpload, CallEvent.isTagCall]
      · simp [hl, runArbTrace, runIsLatest, hts, CallEvent.isArb,
          CallEvent.isUpload]

/-- C7: a report that parses but whose verb is not "update" makes `Run`
return the unsupported-operation error with an empty client-call trace: no
`IsLatest`, `UploadBOM` or `AddTagsToProject` call is made. -/
theorem run_rejects_non_update_verb (cfg : Config) (env : RunEnv) (r : Report)
    (hp : env.parseResult = Except.ok r) (hv : r.verbIsUpdate = false) :
    Run cfg env = (some (Err.unsupported "only support verb is update"), []) := by
  simp [Run, hp, hv]

/-- C8: when parsing fails with the recognized "not an SBOM report"
condition `Run` returns nil with no further step (empty trace); any other
parse failure is returned as-is, also with no further step. -/
theorem run_parse_failure_cases (cfg : Config) (env : RunEnv) (e : Err)
    (hp : env.parseResult = Except.error e) :
    (IsErrNotSBOMReport e = true → Run cfg env = (none, [])) ∧
    (IsErrNotSBOMReport e = false → Run cfg env = (some e, [])) := by
  constructor <;> intro h <;> simp [Run, hp, h]

/-- C9: when the resolved tag list is empty `Run` never calls
`AddTagsToProject`; when it is non-empty and the upload succeeded, exactly
one `AddTagsToProject` call is made, with exactly the resolved tags; and
`AddTagsToProject` itself passes `Project.Update` the looked-up record with
the tags appended in order to its existing tag collection, without
deduplication. -/
theorem run_tag_application (cfg : Config) (env : RunEnv) (r : Report)
    (pn pv ppn ppv : String) (ts : List String)
    (hp : env.parseResult = Except.ok r) (hv : r.verbIsUpdate = true)
    (hm : env.toMapResult = Except.ok ())
    (h1 : env.render cfg.projectName = Except.ok pn)
    (h2 : env.render cfg.projectVersion = Except.ok pv)
    (h3 : renderTags env.render cfg.projectTags = Except.ok ts)
    (h4 : env.render cfg.parentName = Except.ok ppn)
    (h5 : env.render cfg.parentVersion = Except.ok ppv) :
    (ts = [] → (Run cfg env).2.filter CallEvent.isTagCall = []) ∧
    (ts ≠ [] →
      env.uploadBOM pn pv ppn ppv r.bom (runIsLatest env pn pv r)
        = Except.ok () →
      (Run cfg env).2.filter CallEvent.isTagCall
        = [CallEvent.addTagsCall pn pv ts]) ∧
    (∀ tenv : TagEnv, ∀ p : Project, ∀ tags2 : List String,
      tenv.lookup = Except.ok p →
      (AddTagsToProjectImpl tenv tags2).2
        = [{ p with tags := p.tags ++ tags2.map (fun t => { name := t }) }]) := by
  have hr := run_happy_path cfg env r pn pv ppn ppv ts hp hv hm h1 h2 h3 h4 h5
  refine ⟨fun hts => ?_, fun hne hu => ?_, fun tenv p tags2 hl => ?_⟩
  · rw [hr]
    cases hu : env.uploadBOM pn pv ppn ppv r.bom (runIsLatest env pn pv r) with
    | error e => simp [runArbTrace_filter_tag, CallEvent.isTagCall]
    | ok u => simp [hts, runArbTrace_filter_tag, CallEvent.isTagCall]
  · have hl : ts.length > 0 := List.length_pos.mpr hne
    rw [hr, hu]
    cases ha : env.addTags pn pv ts <;>
      simp [hl, runArbTrace_filter_tag, CallEvent.isTagCall]
  · simp only [AddTagsToProjectImpl, hl]
    cases hu : tenv.update
        { p with tags := p.tags ++ tags2.map (fun t => { name := t }) } <;> simp

/-- C10: when the upload succeeds, the resolved tag list is non-empty, and
the tag call fails, `Run` returns the tagging error verbatim while the
trace still records exactly one `UploadBOM` call followed by exactly one
`AddTagsToProject` call — the completed upload is neither undone nor
retried. -/
theorem run_tag_error_preserves_upload (cfg : Config) (env : RunEnv)
    (r : Report) (pn pv ppn ppv : String) (ts : List String) (e : Err)
    (hp : env.parseResult = Except.ok r) (hv : r.verbIsUpdate = true)
    (hm : env.toMapResult = Except.ok ())
    (h1 : env.render cfg.projectName = Except.ok pn)
    (h2 : env.render cfg.projectVersion = Except.ok pv)
    (h3 : renderTags env.render cfg.projectTags = Except.ok ts)
    (h4 : env.render cfg.parentName = Except.ok ppn)
    (h5 : env.render cfg.parentVersion = Except.ok ppv)
    (hne : ts ≠ [])
    (hu : env.uploadBOM pn pv ppn ppv r.bom (runIsLatest env pn pv r)
      = Except.ok ())
    (ha : env.addTags pn pv ts = Except.error e) :
    (Run cfg env).1 = some e ∧
    (Run cfg env).2.filter CallEvent.isUpload
      = [CallEvent.uploadCall pn pv ppn ppv r.bom (runIsLatest env pn pv r)] ∧
    (Run cfg env).2.filter CallEvent.isTagCall
      = [CallEvent.addTagsCall pn pv ts] := by
  have hr := run_happy_path cfg env r pn pv ppn ppv ts hp hv hm h1 h2 h3 h4 h5
  have hl : ts.length > 0 := List.length_pos.mpr hne
  rw [hr, hu]
  simp [hl, ha, runArbTrace_filter_tag, runArbTrace_filter_upload,
    CallEvent.isUpload, CallEvent.isTagCall]

/-- A sample parsed update report for concrete checks. -/
def sampleReport : Report :=
  { verbIsUpdate := true, updateTimestamp := "1700000000", bom := [1, 2, 3] }

/-- A sample configuration whose template expressions are literal strings. -/
def sampleConfig : Config :=
  { projectName := "myproj", projectVersion := "v1",
    projectTags := ["team:alpha"], parentName := "papa", parentVersion := "p1" }

/-- A collaborator oracle where every call succeeds, templates render to
themselves, and the arbiter answers `false`. -/
def sampleEnv : RunEnv :=
  { parseResult := Except.ok sampleReport
  , toMapResult := Except.ok ()
  , render := fun t => Except.ok t
  , isLatest := fun _ _ _ => false
  , uploadBOM := fun _ _ _ _ _ _ => Except.ok ()
  , addTags := fun _ _ _ => Except.ok () }

/-- `sampleReport` with an unparsable update timestamp. -/
def sampleReportBadTS : Report := { sampleReport with updateTimestamp := "n/a" }

/-- `sampleEnv` delivering `sampleReportBadTS`. -/
def sampleEnvBadTS : RunEnv :=
  { sampleEnv with parseResult := Except.ok sampleReportBadTS }

/-- Witness for C4 at concrete inputs: with timestamp "n/a" no arbiter call
is made and the upload carries `isLatest = true`; with timestamp
"1700000000" exactly one arbiter call is made and the upload carries the
arbiter's `false`. -/
theorem run_timestamp_default_witness :
    ((Run sampleConfig sampleEnvBadTS).2.filter CallEvent.isArb = [] ∧
     (Run sampleConfig sampleEnvBadTS).2.filter CallEvent.isUpload
       = [CallEvent.uploadCall "myproj" "v1" "papa" "p1" [1, 2, 3] true]) ∧
    ((Run sampleConfig sampleEnv).2.filter CallEvent.isArb
       = [CallEvent.isLatestCall "myproj" "v1" 1700000000] ∧
     (Run sampleConfig sampleEnv).2.filter CallEvent.isUpload
       = [CallEvent.uploadCall "myproj" "v1" "papa" "p1" [1, 2, 3] false]) :=
  ⟨(run_timestamp_default sampleConfig sampleEnvBadTS sampleReportBadTS
      "myproj" "v1" "papa" "p1" ["team:alpha"]
      rfl rfl rfl rfl rfl rfl rfl rfl).1 (by decide),
   (run_timestamp_default sampleConfig sampleEnv sampleReport
      "myproj" "v1" "papa" "p1" ["team:alpha"]
      rfl rfl rfl rfl rfl rfl rfl rfl).2 1700000000 (by decide)⟩

/-- `sampleReport` with a verb other than "update". -/
def reportCreateVerb : Report := { sampleReport with verbIsUpdate := false }

/-- `sampleEnv` delivering a report whose verb is not "update". -/
def sampleEnvCreateVerb : RunEnv :=
  { sampleEnv with parseResult := Except.ok reportCreateVerb }

/-- Witness for C7 at a concrete input: a non-update report yields the
unsupported-operation error and an empty call trace. -/
theorem run_rejects_non_update_verb_witness :
    Run sampleConfig sampleEnvCreateVerb
      = (some (Err.unsupported "only support verb is update"), []) :=
  run_rejects_non_update_verb sampleConfig sampleEnvCreateVerb
    reportCreateVerb (by rfl) (by rfl)

/-- `sampleEnv` whose parse fails with the recognized skip condition. -/
def sampleEnvNotSBOM : RunEnv :=
  { sampleEnv with parseResult := Except.error (Err.notSBOMReport "not an sbom report") }

/-- `sampleEnv` whose parse fails with an ordinary error. -/
def sampleEnvParseErr : RunEnv :=
  { sampleEnv with parseResult := Except.error (Err.service "bad payload") }

/-- Witness for C8 at concrete inputs: the recognized skip condition yields
nil and no calls; an ordinary parse error is returned verbatim. -/
theorem run_parse_failure_cases_witness :
    Run sampleConfig sampleEnvNotSBOM = (none, []) ∧
    Run sampleConfig sampleEnvParseErr
      = (some (Err.service "bad payload"), []) :=
  ⟨(run_parse_failure_cases sampleConfig sampleEnvNotSBOM
      (Err.notSBOMReport "not an sbom report") (by rfl)).1 (by rfl),
   (run_parse_failure_cases sampleConfig sampleEnvParseErr
      (Err.service "bad payload") (by rfl)).2 (by rfl)⟩

/-- `sampleConfig` with no tag templates, so the resolved tag list is
empty. -/
def emptyTagsConfig : Config := { sampleConfig with projectTags := [] }

/-- A tag-call oracle whose lookup returns a project that already carries a
tag and whose update succeeds. -/
def sampleTagEnv : TagEnv :=
  { lookup := Except.ok
      { name := "myproj", version := "v1", active := true, uuid := "u-1",
        lastBOMImport := 3, tags := [{ name := "old" }] }
  , update := fun p => Except.ok p }

/-- Witness for C9 at concrete inputs: an empty resolved tag list yields no
tag call; a non-empty one yields exactly one tag call with those tags; and
the record persisted by `AddTagsToProject` carries the duplicate tags
appended in order after the existing one. -/
theorem run_tag_application_witness :
    (Run emptyTagsConfig sampleEnv).2.filter CallEvent.isTagCall = [] ∧
    (Run sampleConfig sampleEnv).2.filter CallEvent.isTagCall
      = [CallEvent.addTagsCall "myproj" "v1" ["team:alpha"]] ∧
    (AddTagsToProjectImpl sampleTagEnv ["a", "a"]).2
      = [{ name := "myproj", version := "v1", active := true, uuid := "u-1",
           lastBOMImport := 3,
           tags := [{ name := "old" }, { name := "a" }, { name := "a" }] }] :=
  ⟨(run_tag_application emptyTagsConfig sampleEnv sampleReport
      "myproj" "v1" "papa" "p1" [] rfl rfl rfl rfl rfl rfl rfl rfl).1 rfl,
   (run_tag_application sampleConfig sampleEnv sampleReport
      "myproj" "v1" "papa" "p1" ["team:alpha"]
      rfl rfl rfl rfl rfl rfl rfl rfl).2.1 (by decide) rfl,
   (run_tag_application sampleConfig sampleEnv sampleReport
      "myproj" "v1" "papa" "p1" ["team:alpha"]
      rfl rfl rfl rfl rfl rfl rfl rfl).2.2 sampleTagEnv
      { name := "myproj", version := "v1", active := true, uuid := "u-1",
        lastBOMImport := 3, tags := [{ name := "old" }] } ["a", "a"] rfl⟩

/-- `sampleEnv` whose `AddTagsToProject` call fails. -/
def sampleEnvTagFail : RunEnv :=
  { sampleEnv with addTags := fun _ _ _ => Except.error (Err.service "update failed") }

/-- Witness for C10 at a concrete input: the tagging error is returned,
with exactly one upload call and one tag call in the trace. -/
theorem run_tag_error_preserves_upload_witness :
    (Run sampleConfig sampleEnvTagFail).1 = some (Err.service "update failed") ∧
    (Run sampleConfig sampleEnvTagFail).2.filter CallEvent.isUpload
      = [CallEvent.uploadCall "myproj" "v1" "papa" "p1" [1, 2, 3] false] ∧
    (Run sampleConfig sampleEnvTagFail).2.filter CallEvent.isTagCall
      = [CallEvent.addTagsCall "myproj" "v1" ["team:alpha"]] :=
  run_tag_error_preserves_upload sampleConfig sampleEnvTagFail sampleReport
    "myproj" "v1" "papa" "p1" ["team:alpha"] (Err.service "update failed")
    (by rfl) (by rfl) (by rfl) (by rfl) (by rfl) (by rfl) (by rfl) (by rfl)
    (by decide) (by rfl) (by rfl)
